import Mathlib

/-!
# Verification of the discrete navigation planner

Shallow embedding of `src/home_robot/home_robot/navigation_planner/discrete_planner.py`
(class `DiscretePlanner`) and of the collaborators it uses.  Numpy float
arithmetic is embedded over `ℚ`; square-root comparisons `sqrt s < t` are
embedded by the exact equivalent `0 ≤ t ∧ s < t^2`; grids are row-major
lists of rows; Python's clipping slice semantics (including the negative-index
wraparound) are embedded explicitly.  Transcendental functions (`math.atan2`,
`np.cos`, `np.sin`) are parameters of the model (`TrigModel`); concrete runs
instantiate them with a stand-in that is exact on the half-axes and diagonals,
which are the only directions those runs evaluate.
-/

set_option allowUnsafeReducibility true

set_option maxRecDepth 1000000

set_option maxHeartbeats 1000000

attribute [local semireducible] Rat.add Rat.mul Rat.sub Rat.div Rat.neg Rat.inv

namespace HomeRobot

/-- Iterate a function `n` times. -/
def iterateN {α : Type} (f : α → α) : Nat → α → α
  | 0, a => a
  | n + 1, a => iterateN f n (f a)

/-- Binary grids and numeric grids, row-major.  Out-of-range reads give `0`
(numpy reads in the embedded code are always in range; the default only keeps
the functions total). -/
abbrev Grid := List (List Nat)

def Grid.get (g : Grid) (i j : Nat) : Nat := (g.getD i []).getD j 0

def Grid.height (g : Grid) : Nat := g.length

def Grid.width (g : Grid) : Nat := (g.headD []).length

/-- Point update; a no-op out of range (matching a clipped numpy slice write). -/
def Grid.set (g : Grid) (i j v : Nat) : Grid := List.set g i ((g.getD i []).set j v)

def Grid.ofFn (h w : Nat) (f : Nat → Nat → Nat) : Grid :=
  (List.range h).map fun i => (List.range w).map fun j => f i j

/-- Read with integer coordinates; out of range gives 0 (zero padding). -/
def Grid.getZ (g : Grid) (i j : ℤ) : Nat :=
  if 0 ≤ i ∧ 0 ≤ j then g.get i.toNat j.toNat else 0

/-- Well-formedness: the grid really is an `h × w` matrix. -/
def Grid.wf (g : Grid) (h w : Nat) : Prop :=
  g.length = h ∧ ∀ row ∈ g, row.length = w

instance (g : Grid) (h w : Nat) : Decidable (Grid.wf g h w) := by
  unfold Grid.wf
  infer_instance

/-- Python `int()`: truncation toward zero. -/
def pyInt (q : ℚ) : ℤ := if 0 ≤ q then q.floor else q.ceil

/-- Python slice start semantics on an axis of length `n`: a negative index
wraps around to `n + s` (clamped at 0); a non-negative one is clamped at `n`. -/
def pySliceIdx (s : ℤ) (n : Nat) : Nat :=
  if s < 0 then ((n : ℤ) + s).toNat else min s.toNat n

/-- Modelled from the spec: `pu.threshold_poses` (`home_robot.utils.pose`, not
under `src/`) clamps a coordinate pair into grid bounds ("Pose outside grid
bounds: clamped, not failed"). -/
def thresholdPoses (p : ℤ × ℤ) (shape : Nat × Nat) : Nat × Nat :=
  (min (max p.1 0).toNat (shape.1 - 1), min (max p.2 0).toNat (shape.2 - 1))

/-- Exact embedding of the float comparison `sqrt s < t` for `s ≥ 0`. -/
def sqrtLt (s t : ℚ) : Prop := 0 ≤ t ∧ s < t ^ 2

instance (s t : ℚ) : Decidable (sqrtLt s t) := by unfold sqrtLt; infer_instance

/-- Exact embedding of the float comparison `sqrt s > t` for `s ≥ 0`. -/
def sqrtGt (s t : ℚ) : Prop := t < 0 ∨ t ^ 2 < s

instance (s t : ℚ) : Decidable (sqrtGt s t) := by unfold sqrtGt; infer_instance

/-- Modelled from the spec: `pu.normalize_angle` (`home_robot.utils.pose`, not
under `src/`) wraps an angle in degrees to a single turn, "signed,
wrapped-to-[-180°,180°]". -/
def normalizeAngle (a : ℚ) : ℚ := a - 360 * ⌊(a + 180) / 360⌋

/-- Squared Euclidean distance between two cells (used so that every metric
comparison in the source can be embedded exactly via `sqrtLt` / `sqrtGt`). -/
def sqCellDist (a b : Nat × Nat) : ℚ :=
  ((a.1 : ℚ) - (b.1 : ℚ)) ^ 2 + ((a.2 : ℚ) - (b.2 : ℚ)) ^ 2

/-- The transcendental functions used by the planner (`math.atan2` in degrees,
`np.cos`/`np.sin` of an angle in degrees), kept abstract: theorems quantify
over the model, concrete runs use `octTrig` below. -/
structure TrigModel where
  cosDeg : ℚ → ℚ
  sinDeg : ℚ → ℚ
  atan2Deg : ℚ → ℚ → ℚ

/-- Stand-in for `math.degrees(math.atan2(a, b))`: exact whenever `(b, a)`
points along a half-axis or a diagonal, linear inside each octant. -/
def octAtan2Deg (a b : ℚ) : ℚ :=
  if 0 < b ∧ |a| ≤ b then 45 * a / b
  else if 0 < a ∧ |b| ≤ a then 90 - 45 * b / a
  else if a < 0 ∧ |b| ≤ -a then -90 - 45 * b / a
  else if b < 0 ∧ 0 ≤ a then 180 - 45 * a / (-b)
  else if b < 0 then -180 - 45 * a / (-b)
  else 0

/-- Stand-in trig model: exact at multiples of 90 degrees for cos/sin and on
half-axes/diagonals for atan2. -/
def octTrig : TrigModel :=
  { cosDeg := fun t => (90 - |normalizeAngle t|) / 90
    sinDeg := fun t => (90 - |normalizeAngle (t - 90)|) / 90
    atan2Deg := octAtan2Deg }

/-- Modelled from the spec: the discrete action set
(`home_robot.core.interfaces.DiscreteNavigationAction`, not under `src/`):
"One discrete action drawn from the closed set
\{MOVE_FORWARD, TURN_LEFT, TURN_RIGHT, STOP\}". -/
inductive DiscreteNavigationAction where
  | stop
  | moveForward
  | turnLeft
  | turnRight
deriving DecidableEq, Repr

/-- Constructor arguments of `DiscretePlanner.__init__` (configuration fixed at
construction). -/
structure PlannerConfig where
  turn_angle : ℚ
  collision_threshold : ℚ
  step_size : Nat
  start_obs_dilation_selem_radius : Nat
  goal_dilation_selem_radius : Nat
  map_size_cm : Nat
  map_resolution : Nat
  min_goal_distance_cm : ℚ
  min_obs_dilation_selem_radius : Nat
  agent_cell_radius : Nat
deriving Repr

/-- The side length of the global map: `map_size_cm // map_resolution` cells. -/
def PlannerConfig.mapCells (cfg : PlannerConfig) : Nat :=
  cfg.map_size_cm / cfg.map_resolution

/-- The mutable attributes of a `DiscretePlanner` instance. -/
structure PlannerState where
  collision_map : Grid
  visited_map : Grid
  col_width : Nat
  last_pose : Option (ℚ × ℚ × ℚ)
  curr_pose : ℚ × ℚ × ℚ
  last_action : Option DiscreteNavigationAction
  timestep : Nat
  curr_obs_dilation_selem_radius : Nat
deriving Repr

/-- Embedding of `DiscretePlanner.reset`. -/
def DiscretePlanner.reset (cfg : PlannerConfig) : PlannerState :=
  { collision_map := Grid.ofFn cfg.mapCells cfg.mapCells fun _ _ => 0
    visited_map := Grid.ofFn cfg.mapCells cfg.mapCells fun _ _ => 0
    col_width := 1
    last_pose := none
    curr_pose := ((cfg.map_size_cm : ℚ) / 100 / 2, (cfg.map_size_cm : ℚ) / 100 / 2, 0)
    last_action := none
    timestep := 1
    curr_obs_dilation_selem_radius := cfg.start_obs_dilation_selem_radius }

/-- The stall-counter / footprint-parameter update of `_check_collision`
(lines 453-463): `buf = 4; length = 2;` then on a stall `col_width += 2`,
the `== 7` check selects `length = 4, buf = 3`, and the counter is clamped
to 5; a non-stall resets the counter to 1.  Returns
`(new col_width, length, buf)`. -/
def collisionParams (w : Nat) (stall : Bool) : Nat × Nat × Nat :=
  if stall then
    (min (w + 2) 5, if w + 2 = 7 then 4 else 2, if w + 2 = 7 then 3 else 4)
  else
    (1, 2, 4)

/-- The list of (row, col) indices painted into the collision map by
`_check_collision`'s double loop (lines 472-487), each clamped by
`threshold_poses`. -/
def paintedCells (trig : TrigModel) (mapResolution : Nat) (shape : Nat × Nat)
    (x1 y1 t1 : ℚ) (length width buf : Nat) : List (Nat × Nat) :=
  (List.range length).flatMap fun i =>
    (List.range width).map fun j =>
      let wx : ℚ := x1 + 1/20 * (((i : ℚ) + (buf : ℚ)) * trig.cosDeg t1
        + ((j : ℚ) - ((width / 2 : Nat) : ℚ)) * trig.sinDeg t1)
      let wy : ℚ := y1 + 1/20 * (((i : ℚ) + (buf : ℚ)) * trig.sinDeg t1
        - ((j : ℚ) - ((width / 2 : Nat) : ℚ)) * trig.cosDeg t1)
      thresholdPoses (pyInt (wy * 100 / (mapResolution : ℚ)),
        pyInt (wx * 100 / (mapResolution : ℚ))) shape

/-- Write 1 at each listed cell. -/
def writeOnes (g : Grid) (cells : List (Nat × Nat)) : Grid :=
  cells.foldl (fun acc rc => acc.set rc.1 rc.2 1) g

structure CollisionResult where
  col_width : Nat
  collision_map : Grid
deriving Repr

/-- Embedding of `DiscretePlanner._check_collision`.  The poses are `(x, y, heading)`;
`get_l2_distance(x1, x2, y1, y2) < collision_threshold` is embedded exactly by
`sqrtLt` on the squared displacement. -/
def checkCollision (cfg : PlannerConfig) (trig : TrigModel)
    (lastPose currPose : ℚ × ℚ × ℚ) (colWidth : Nat) (collisionMap : Grid) :
    CollisionResult :=
  let x1 := lastPose.1
  let y1 := lastPose.2.1
  let t1 := lastPose.2.2
  let x2 := currPose.1
  let y2 := currPose.2.1
  let stall : Bool := decide (|x1 - x2| < 1/20 ∧ |y1 - y2| < 1/20)
  let p := collisionParams colWidth stall
  let width := p.1
  let length := p.2.1
  let buf := p.2.2
  if sqrtLt ((x1 - x2) ^ 2 + (y1 - y2) ^ 2) cfg.collision_threshold then
    { col_width := width
      collision_map := writeOnes collisionMap
        (paintedCells trig cfg.map_resolution
          (collisionMap.height, collisionMap.width) x1 y1 t1 length width buf) }
  else
    { col_width := width, collision_map := collisionMap }

/-- Modelled from the spec: the Grid Morphology collaborator
(`dilate(grid, diskRadius) → grid`, §6): binary dilation by a disk-shaped
structuring element — offsets at Euclidean distance at most `r`. -/
def diskOffsets (r : Nat) : List (ℤ × ℤ) :=
  ((List.range (2 * r + 1)).flatMap fun a =>
    (List.range (2 * r + 1)).map fun b => ((a : ℤ) - (r : ℤ), (b : ℤ) - (r : ℤ))).filter
    fun o => o.1 ^ 2 + o.2 ^ 2 ≤ (r : ℤ) ^ 2

/-- Modelled from the spec: binary dilation of `g` by a disk of radius `r`
(outside the grid counts as empty). -/
def dilate (g : Grid) (r : Nat) : Grid :=
  Grid.ofFn g.height g.width fun i j =>
    if (diskOffsets r).any (fun o => g.getZ ((i : ℤ) + o.1) ((j : ℤ) + o.2) == 1)
    then 1 else 0

/-- Function `add_boundary` from the source: surround the grid with a 1-cell frame of
`v`. -/
def addBoundary (g : Grid) (v : Nat) : Grid :=
  Grid.ofFn (g.height + 2) (g.width + 2) fun i j =>
    if 1 ≤ i ∧ i ≤ g.height ∧ 1 ≤ j ∧ j ≤ g.width then g.get (i - 1) (j - 1) else v

/-- Function `remove_boundary` from the source: strip the 1-cell frame. -/
def removeBoundary (g : Grid) : Grid :=
  Grid.ofFn (g.height - 2) (g.width - 2) fun i j => g.get (i + 1) (j + 1)

/-- Sentinel distance value, larger than any real wavefront distance on an
`h × w` grid ("Cells never reached by the front hold a sentinel value larger
than any real distance"). -/
def fmmSentinel (h w : Nat) : Nat := h * w + 10000

/-- The 4-connected neighbourhood. -/
def neighbors4 (c : Nat × Nat) : List (ℤ × ℤ) :=
  [((c.1 : ℤ) + 1, (c.2 : ℤ)), ((c.1 : ℤ) - 1, (c.2 : ℤ)),
   ((c.1 : ℤ), (c.2 : ℤ) + 1), ((c.1 : ℤ), (c.2 : ℤ) - 1)]

/-- Distance-field read with integer coordinates; out of range is the
sentinel. -/
def distAtZ (h w : Nat) (d : Grid) (p : ℤ × ℤ) : Nat :=
  if 0 ≤ p.1 ∧ p.1 < (h : ℤ) ∧ 0 ≤ p.2 ∧ p.2 < (w : ℤ) then d.get p.1.toNat p.2.toNat
  else fmmSentinel h w

/-- One relaxation sweep of the wavefront solve: seeds get 0, traversable
cells improve to one more than their best neighbour, blocked cells hold the
sentinel.  `seedAnywhere` lets seeds lie on blocked cells (used by the
nearest-navigable-goal query, where a blocked mask cell must still radiate to
its traversable neighbours). -/
def fmmRelax (trav seed : Grid) (seedAnywhere : Bool) (d : Grid) : Grid :=
  let h := trav.height
  let w := trav.width
  Grid.ofFn h w fun i j =>
    if seed.get i j == 1 && (seedAnywhere || trav.get i j == 1) then 0
    else if trav.get i j == 1 then
      min (d.get i j)
        (((neighbors4 (i, j)).map fun p => distAtZ h w d p + 1).foldl min (fmmSentinel h w))
    else fmmSentinel h w

/-- Modelled from the spec: the Geodesic Distance Engine's `solve`
(`FMMPlanner.set_multi_goal`, file `fmm_planner.py`, not under `src/`):
"propagates distance outward from all seed cells across traversable cells
only, unit step cost per 4- or 8-connected move", realised as a wavefront
iterated to fixpoint (`h·w` sweeps bound every shortest path length). -/
def fmmSolveCore (trav seed : Grid) (seedAnywhere : Bool) : Grid :=
  iterateN (fmmRelax trav seed seedAnywhere) (trav.height * trav.width)
    (Grid.ofFn trav.height trav.width fun _ _ => fmmSentinel trav.height trav.width)

def fmmSolve (trav seed : Grid) : Grid := fmmSolveCore trav seed false

/-- Row-major argmin of `val` over the cells satisfying `pick`. -/
def argminCells (h w : Nat) (pick : Nat → Nat → Bool) (val : Nat → Nat → Nat) :
    Option (Nat × Nat) :=
  ((List.range h).flatMap fun i => (List.range w).map fun j => (i, j)).foldl
    (fun best c =>
      if pick c.1 c.2 then
        match best with
        | none => some c
        | some b => if val c.1 c.2 < val b.1 b.2 then some c else some b
      else best)
    none

/-- Modelled from the spec: `FMMPlanner._find_nearest_to_multi_goal` (file
`fmm_planner.py`, not under `src/`): "the seed-mask cell (or nearest
traversable neighbor if the mask cell itself is blocked) with minimal field
value when the field is solved with that mask as seed"; `none` models the
undefined behaviour on a query with no reachable candidate (§7: empty-goal
queries are "undefined/crashing" in the reference). -/
def findNearestToMultiGoal (trav mask : Grid) : Option (Nat × Nat) :=
  let h := trav.height
  let w := trav.width
  let d := fmmSolveCore trav mask true
  argminCells h w
    (fun i j => trav.get i j == 1 && decide (d.get i j < fmmSentinel h w))
    (fun i j => d.get i j)

/-- One steepest-descent step: move to the strictly-smaller-valued neighbour
of least field value, else stay. -/
def descendStep (h w : Nat) (d : Grid) (c : Nat × Nat) : Nat × Nat :=
  (neighbors4 c).foldl
    (fun acc p =>
      if distAtZ h w d p < distAtZ h w d ((acc.1 : ℤ), (acc.2 : ℤ)) then
        (p.1.toNat, p.2.toNat)
      else acc)
    c

/-- Modelled from the spec: `FMMPlanner.get_short_term_goal` (file
`fmm_planner.py`, not under `src/`): "follows the steepest-descent direction
of field from agentCell for up to stepSize cells. replan = true if agentCell's
field value is the sentinel. stop = true if the descent terminates at the
agent's own cell."  Returns `(waypoint, replan, stop)`. -/
def fmmShortTermGoal (trav d : Grid) (state : Nat × Nat) (stepSize : Nat) :
    (Nat × Nat) × Bool × Bool :=
  let h := trav.height
  let w := trav.width
  let final := iterateN (descendStep h w d) stepSize state
  (final, decide (d.get state.1 state.2 = fmmSentinel h w), decide (final = state))

/-- The TraversabilityGrid built by `_get_short_term_goal` (lines 342-356):
inverse of the dilated obstacles, collision cells forced 0, visited cells
forced 1, then the agent block slice forced 1 — with Python's clipping slice
semantics (a negative slice start wraps around, which can empty the block). -/
def buildTraversible (cfg : PlannerConfig) (radius : Nat)
    (obstacleMap collisionMap visitedMap : Grid) (gx1 gy1 : Nat)
    (start : Nat × Nat) : Grid :=
  let M := obstacleMap.height
  let N := obstacleMap.width
  let dilated := dilate obstacleMap radius
  let lo0 := pySliceIdx ((start.1 : ℤ) - (cfg.agent_cell_radius : ℤ)) M
  let hi0 := pySliceIdx ((start.1 : ℤ) + (cfg.agent_cell_radius : ℤ) + 1) M
  let lo1 := pySliceIdx ((start.2 : ℤ) - (cfg.agent_cell_radius : ℤ)) N
  let hi1 := pySliceIdx ((start.2 : ℤ) + (cfg.agent_cell_radius : ℤ) + 1) N
  Grid.ofFn M N fun i j =>
    if lo0 ≤ i ∧ i < hi0 ∧ lo1 ≤ j ∧ j < hi1 then 1
    else if visitedMap.get (gx1 + i) (gy1 + j) == 1 then 1
    else if collisionMap.get (gx1 + i) (gy1 + j) == 1 then 0
    else 1 - dilated.get i j

/-- Flatten a grid to its value list. -/
def gridValues (g : Grid) : List Nat := g.flatMap id

/-- Minimum value of a grid (`.min()` in numpy); grids here are nonempty. -/
def gridMin (g : Grid) : Nat :=
  (gridValues g).foldl min (10000 * fmmSentinel g.height g.width + 1)

/-- Embedding of `np.unravel_index(mask.argmax(), ...)` on a binary mask: first set cell in
row-major order, `(0, 0)` when the mask is all zero. -/
def firstNonzero (g : Grid) : Nat × Nat :=
  ((((List.range g.height).flatMap fun i =>
      (List.range g.width).map fun j => (i, j)).find?
    fun c => g.get c.1 c.2 != 0)).getD (0, 0)

/-- Embedding of `np.nonzero` on a binary mask: row-major list of set cells. -/
def maskNonzero (g : Grid) : List (Nat × Nat) :=
  ((List.range g.height).flatMap fun i =>
    (List.range g.width).map fun j => (i, j)).filter
    fun c => g.get c.1 c.2 != 0

/-- Result record of `_get_short_term_goal` (the waypoint is already shifted
back by the boundary offset, so it is an integer pair). -/
structure StgResult where
  short_term_goal : ℤ × ℤ
  closest_goal_map : Grid
  replan : Bool
  stop : Bool
  closest_goal_pt : Nat × Nat
deriving Repr, DecidableEq

/-- The closest-goal visualisation block of `_get_short_term_goal`
(lines 393-407): a second field seeded at `curr_loc_map[start[0], start[1]]`
(the source indexes the padded grid with the unpadded `start`), combined with
the zero-to-10000 filled goal map by product-argmin. -/
def visClosest (travP goalP : Grid) (start : Nat × Nat) : Grid × (Nat × Nat) :=
  let H := travP.height
  let W := travP.width
  let currLoc := Grid.ofFn H W fun i j => if i = start.1 ∧ j = start.2 then 1 else 0
  let fmmD := fmmSolve travP currLoc
  let goalBig := Grid.ofFn H W fun i j => if goalP.get i j = 0 then 10000 else goalP.get i j
  let fmmBig := Grid.ofFn H W fun i j => if fmmD.get i j = 0 then 10000 else fmmD.get i j
  let prodG := Grid.ofFn H W fun i j => goalBig.get i j * fmmBig.get i j
  let m := gridMin prodG
  let closestP := Grid.ofFn H W fun i j => if prodG.get i j = m then 1 else 0
  let closest := removeBoundary closestP
  (closest, firstNonzero closest)

/-- Embedding of `DiscretePlanner._get_short_term_goal`.  The value `none` models the reference's
undefined behaviour when the precise-mode nearest-navigable-goal query has no
candidate (empty or unreachable goal mask).  In precise mode the `stop` and
`replan` flags are the metric overrides of lines 429 and 438. -/
def getShortTermGoal (cfg : PlannerConfig) (radius : Nat)
    (collisionMap visitedMap : Grid) (obstacleMap goalMap : Grid)
    (start : Nat × Nat) (gx1 gy1 : Nat) (planToDilatedGoal : Bool) :
    Option StgResult :=
  let trav := buildTraversible cfg radius obstacleMap collisionMap visitedMap gx1 gy1 start
  let travP := addBoundary trav 1
  let goalP := addBoundary goalMap 0
  let H := travP.height
  let W := travP.width
  let state : Nat × Nat := (start.1 + 1, start.2 + 1)
  let vis := visClosest travP goalP start
  if planToDilatedGoal then
    let seed := dilate goalP cfg.goal_dilation_selem_radius
    let d := fmmSolve travP seed
    let r := fmmShortTermGoal travP d state cfg.step_size
    some { short_term_goal := ((r.1.1 : ℤ) - 1, (r.1.2 : ℤ) - 1)
           closest_goal_map := vis.1
           replan := r.2.1
           stop := r.2.2
           closest_goal_pt := vis.2 }
  else
    match findNearestToMultiGoal travP goalP with
    | none => none
    | some ng =>
      let seed := Grid.ofFn H W fun i j => if i = ng.1 ∧ j = ng.2 then 1 else 0
      let d := fmmSolve travP seed
      let r := fmmShortTermGoal travP d state cfg.step_size
      let stopM := decide (sqrtLt
        (sqCellDist start vis.2 * (cfg.map_resolution : ℚ) ^ 2) cfg.min_goal_distance_cm)
      let replanM := decide (sqrtGt
        (sqCellDist start ng * (cfg.map_resolution : ℚ) ^ 2) cfg.min_goal_distance_cm)
      some { short_term_goal := ((r.1.1 : ℤ) - 1, (r.1.2 : ℤ) - 1)
             closest_goal_map := vis.1
             replan := replanM
             stop := stopM
             closest_goal_pt := vis.2 }

/-- The start cell `int(start_y*100/res - gx1), int(start_x*100/res - gy1)` thresholded into
the local map (lines 160-164). -/
def computeStart (cfg : PlannerConfig) (start_x start_y : ℚ) (gx1 gy1 : Nat)
    (shape : Nat × Nat) : Nat × Nat :=
  thresholdPoses
    (pyInt (start_y * 100 / (cfg.map_resolution : ℚ) - (gx1 : ℚ)),
     pyInt (start_x * 100 / (cfg.map_resolution : ℚ) - (gy1 : ℚ))) shape

/-- The visited-map write of lines 173-175: a 1×1 slice assignment inside the
planning window (clipped like the numpy slice-of-slice it embeds). -/
def markVisited (visited : Grid) (gx1 gx2 gy1 gy2 : Nat) (start : Nat × Nat) : Grid :=
  if gx1 + start.1 < gx2 ∧ gy1 + start.2 < gy2 then
    visited.set (gx1 + start.1) (gy1 + start.2) 1
  else visited

/-- Per-cycle inputs of `DiscretePlanner.plan` (the 7-tuple `sensor_pose` is
split into named fields; the grids are the perception collaborator's binary
grids, so `np.rint` on them is the identity and is not re-modelled). -/
structure PlanInput where
  obstacle_map : Grid
  goal_map : Grid
  frontier_map : Grid
  start_x : ℚ
  start_y : ℚ
  start_o : ℚ
  gx1 : Nat
  gx2 : Nat
  gy1 : Nat
  gy2 : Nat
  found_goal : Bool
  use_dilation_for_stg : Bool
deriving Repr

/-- Result of one `plan` cycle: the mutated planner state, and the returned
action/mask — `none` when the cycle ends in the reference's fault (empty-goal
query or sampling from an empty closest-goal mask, §7), in which case the
state holds exactly the mutations made before the fault. -/
structure PlanResult where
  state : PlannerState
  outcome : Option (DiscreteNavigationAction × Grid)

/-- Lines 153-179 of `plan`: pose history shift, start-cell computation,
visited marking, and the conditional collision check. -/
def planPrefix (cfg : PlannerConfig) (trig : TrigModel) (s : PlannerState)
    (inp : PlanInput) : PlannerState × (Nat × Nat) :=
  let start := computeStart cfg inp.start_x inp.start_y inp.gx1 inp.gy1
    (inp.obstacle_map.height, inp.obstacle_map.width)
  let visited1 := markVisited s.visited_map inp.gx1 inp.gx2 inp.gy1 inp.gy2 start
  let s1 : PlannerState :=
    { s with last_pose := some s.curr_pose
             curr_pose := (inp.start_x, inp.start_y, inp.start_o)
             visited_map := visited1 }
  let s2 :=
    if s.last_action = some DiscreteNavigationAction.moveForward then
      let r := checkCollision cfg trig s.curr_pose s1.curr_pose s.col_width s.collision_map
      { s1 with col_width := r.col_width, collision_map := r.collision_map }
    else s1
  (s2, start)

/-- The first `_get_short_term_goal` invocation of a `plan` cycle. -/
def planFirstStg (cfg : PlannerConfig) (trig : TrigModel) (s : PlannerState)
    (inp : PlanInput) : Option StgResult :=
  let p := planPrefix cfg trig s inp
  getShortTermGoal cfg s.curr_obs_dilation_selem_radius p.1.collision_map p.1.visited_map
    inp.obstacle_map inp.goal_map p.2 inp.gx1 inp.gy1 inp.use_dilation_for_stg

/-- Whether the frontier fallback re-plan (lines 226-247) runs on this cycle:
the first resolver call reports `replan` without `stop`, with `found_goal`
set. -/
def fallbackFires (cfg : PlannerConfig) (trig : TrigModel) (s : PlannerState)
    (inp : PlanInput) : Bool :=
  match planFirstStg cfg trig s inp with
  | none => false
  | some r1 => r1.replan && !r1.stop && inp.found_goal

/-- Whether the first resolver call reports `replan` without `stop`: the
condition under which `plan` clears the collision map and shrinks the
obstacle-dilation radius (lines 211-224), independent of `found_goal`. -/
def replanFires (cfg : PlannerConfig) (trig : TrigModel) (s : PlannerState)
    (inp : PlanInput) : Bool :=
  match planFirstStg cfg trig s inp with
  | none => false
  | some r1 => r1.replan && !r1.stop

/-- Embedding of `DiscretePlanner.plan`.  The input `rand` stands for the process-global random draw
of line 264 (`np.random.randint`); on an empty closest-goal mask the draw is
the reference fault and the outcome is `none`. -/
def DiscretePlanner.plan (cfg : PlannerConfig) (trig : TrigModel) (s : PlannerState)
    (inp : PlanInput) (rand : Nat) : PlanResult :=
  let p := planPrefix cfg trig s inp
  let s2 := p.1
  let start := p.2
  match planFirstStg cfg trig s inp with
  | none => { state := s2, outcome := none }
  | some r1 =>
    let t1 := s.timestep + 1
    let fb := r1.replan && !r1.stop
    let collision2 :=
      if fb then Grid.ofFn s2.collision_map.height s2.collision_map.width fun _ _ => 0
      else s2.collision_map
    let radius2 :=
      if fb && decide (cfg.min_obs_dilation_selem_radius < s.curr_obs_dilation_selem_radius)
      then s.curr_obs_dilation_selem_radius - 1
      else s.curr_obs_dilation_selem_radius
    let step2 :=
      if fb && inp.found_goal then
        match getShortTermGoal cfg radius2 collision2 s2.visited_map inp.obstacle_map
            inp.frontier_map start inp.gx1 inp.gy1 true with
        | none => none
        | some r2 => some (r2, t1 + 1, false)
      else some (r1, t1, inp.found_goal)
    match step2 with
    | none =>
      { state := { s2 with
          collision_map := collision2
          curr_obs_dilation_selem_radius := radius2
          timestep := t1 }
        outcome := none }
    | some (rF, t2, found2) =>
      let angle_st_goal := trig.atan2Deg ((rF.short_term_goal.1 : ℚ) - (start.1 : ℚ))
        ((rF.short_term_goal.2 : ℚ) - (start.2 : ℚ))
      let angle_agent := normalizeAngle inp.start_o
      let relative_angle := normalizeAngle (angle_agent - angle_st_goal)
      let cells := maskNonzero rF.closest_goal_map
      match cells.get? (rand % cells.length) with
      | none =>
        { state := { s2 with
            collision_map := collision2
            curr_obs_dilation_selem_radius := radius2
            timestep := t2 }
          outcome := none }
      | some gc =>
        let angle_goal := normalizeAngle
          (trig.atan2Deg ((gc.1 : ℚ) - (start.1 : ℚ)) ((gc.2 : ℚ) - (start.2 : ℚ)))
        let relative_angle_goal := normalizeAngle (angle_agent - angle_goal)
        let action :=
          if !(found2 && rF.stop) then
            if cfg.turn_angle / 2 < relative_angle then DiscreteNavigationAction.turnRight
            else if relative_angle < -(cfg.turn_angle / 2) then DiscreteNavigationAction.turnLeft
            else DiscreteNavigationAction.moveForward
          else
            if 2 * cfg.turn_angle / 3 < relative_angle_goal then DiscreteNavigationAction.turnRight
            else if relative_angle_goal < -(2 * cfg.turn_angle / 3) then DiscreteNavigationAction.turnLeft
            else DiscreteNavigationAction.stop
        { state := { s2 with
            collision_map := collision2
            curr_obs_dilation_selem_radius := radius2
            timestep := t2
            last_action := some action }
          outcome := some (action, rF.closest_goal_map) }

/-! ### Concrete fixtures

Small planner configurations and inputs used to evaluate the embedded planner
on explicit runs (counterexamples and witnesses).  A 3×3 local map with
100 cm resolution keeps every metric quantity exact. -/

/-- Baseline configuration: 3×3 map of 1 m cells, 30° turn increment, 0.2 m
collision threshold, dilation radii 1 with floor 1, 60 cm goal acceptance. -/
def cfgA : PlannerConfig :=
  { turn_angle := 30
    collision_threshold := 1/5
    step_size := 5
    start_obs_dilation_selem_radius := 1
    goal_dilation_selem_radius := 1
    map_size_cm := 300
    map_resolution := 100
    min_goal_distance_cm := 60
    min_obs_dilation_selem_radius := 1
    agent_cell_radius := 1 }

/-- Like `cfgA` with goal-dilation radius 2 (dilated-goal seeding reaches the
agent from two cells away). -/
def cfgB : PlannerConfig := { cfgA with goal_dilation_selem_radius := 2 }

/-- Like `cfgA` with a 1 cm collision threshold (a stalled move can still be
above the collision threshold). -/
def cfgC : PlannerConfig := { cfgA with collision_threshold := 1/100 }

/-- Freshly reset planner state for the 3×3 configurations. -/
def st0 : PlannerState := DiscretePlanner.reset cfgA

def zeros3 : Grid := [[0, 0, 0], [0, 0, 0], [0, 0, 0]]

/-- Empty goal mask, agent cornered at cell (0,0) with obstacles everywhere
else, dilated-goal mode: every candidate for the closest-goal product-argmin
lies on the padding boundary, so the returned closest-goal mask is empty and
the orientation-target sampling of line 264 has nothing to draw from. -/
def inEmptyGoal : PlanInput :=
  { obstacle_map := [[0, 1, 1], [1, 1, 1], [1, 1, 1]]
    goal_map := zeros3
    frontier_map := zeros3
    start_x := 0
    start_y := 0
    start_o := 0
    gx1 := 0
    gx2 := 3
    gy1 := 0
    gy2 := 3
    found_goal := true
    use_dilation_for_stg := true }

/-- Precise-mode input whose goal at cell (0,0) is farther than the goal
acceptance distance from the agent at cell (2,2): the first resolver call
reports `replan` without `stop`, so with `found_goal` the frontier fallback
(second resolver call) runs. -/
def inFallback : PlanInput :=
  { obstacle_map := zeros3
    goal_map := [[1, 0, 0], [0, 0, 0], [0, 0, 0]]
    frontier_map := [[0, 0, 1], [0, 0, 0], [0, 0, 0]]
    start_x := 2
    start_y := 2
    start_o := 0
    gx1 := 0
    gx2 := 3
    gy1 := 0
    gy2 := 3
    found_goal := true
    use_dilation_for_stg := false }

/-- Same cycle as `inFallback` but with `found_goal = false`: the fallback
resolver call does not run. -/
def inNoFound : PlanInput := { inFallback with found_goal := false }

/-- Dilated-goal mode (`use_dilation_for_stg = true`) with the goal at cell
(0,2), two cells (200 cm) away from the agent at (2,2), heading −90°: under
`cfgB` the dilated goal region covers the agent's cell, so the engine reports
`stop` even though the goal itself is far beyond the 60 cm acceptance
distance. -/
def inDilatedStop : PlanInput :=
  { obstacle_map := zeros3
    goal_map := [[0, 0, 1], [0, 0, 0], [0, 0, 0]]
    frontier_map := zeros3
    start_x := 2
    start_y := 2
    start_o := -90
    gx1 := 0
    gx2 := 3
    gy1 := 0
    gy2 := 3
    found_goal := true
    use_dilation_for_stg := true }

/-! ### Helper lemmas about the grid representation -/

lemma getD_map_range {α : Type} (n i : Nat) (f : Nat → α) (d : α) :
    ((List.range n).map f).getD i d = if i < n then f i else d := by
  rw [List.getD_eq_getElem?_getD, List.getElem?_map]
  by_cases h : i < n
  · rw [List.getElem?_range h]
    simp [h]
  · rw [List.getElem?_eq_none (by simpa [List.length_range] using Nat.le_of_not_lt h)]
    simp [h]

lemma Grid.get_ofFn (h w i j : Nat) (f : Nat → Nat → Nat) :
    (Grid.ofFn h w f).get i j =
      if i < h then (if j < w then f i j else 0) else 0 := by
  unfold Grid.ofFn Grid.get
  rw [getD_map_range]
  by_cases hi : i < h
  · simp only [hi, if_true]
    rw [getD_map_range]
  · simp [hi]

lemma Grid.wf_row_len (g : Grid) (mh mw i : Nat) (hwf : Grid.wf g mh mw)
    (hi : i < mh) : (g.getD i []).length = mw := by
  obtain ⟨hlen, hrows⟩ := hwf
  have hil : i < g.length := by omega
  rw [List.getD_eq_getElem?_getD, List.getElem?_eq_getElem hil]
  exact hrows _ (List.getElem_mem hil)

lemma Grid.get_set_self (g : Grid) (i j v : Nat) (hi : i < g.length)
    (hj : j < (g.getD i []).length) :
    (Grid.set g i j v).get i j = v := by
  unfold Grid.set Grid.get
  rw [List.getD_eq_getElem?_getD,
    List.getD_eq_getElem?_getD (List.set g i ((g.getD i []).set j v)) i [],
    List.getElem?_set_eq_of_lt _ hi]
  simp only [Option.getD_some]
  rw [List.getElem?_set_eq_of_lt _ hj]
  rfl

lemma checkCollision_col_width (cfg : PlannerConfig) (trig : TrigModel)
    (lp cp : ℚ × ℚ × ℚ) (w : Nat) (g : Grid) :
    (checkCollision cfg trig lp cp w g).col_width =
      (collisionParams w (decide (|lp.1 - cp.1| < 1/20 ∧ |lp.2.1 - cp.2.1| < 1/20))).1 := by
  unfold checkCollision
  dsimp only
  split <;> rfl

/-! ### Claim theorems -/

/-- C3: after `reset`, CollisionMap and VisitedMap are entirely zero, the
footprint-width counter equals 1, the cycle counter equals 1, the
obstacle-dilation radius equals its configured initial value, and the pose
history is cleared. -/
theorem C3_reset_state (cfg : PlannerConfig) (i j : Nat) :
    (DiscretePlanner.reset cfg).collision_map.get i j = 0 ∧
    (DiscretePlanner.reset cfg).visited_map.get i j = 0 ∧
    (DiscretePlanner.reset cfg).col_width = 1 ∧
    (DiscretePlanner.reset cfg).timestep = 1 ∧
    (DiscretePlanner.reset cfg).curr_obs_dilation_selem_radius =
      cfg.start_obs_dilation_selem_radius ∧
    (DiscretePlanner.reset cfg).last_pose = none := by
  refine ⟨?_, ?_, rfl, rfl, rfl, rfl⟩ <;>
  · simp only [DiscretePlanner.reset]
    rw [Grid.get_ofFn]
    split <;> simp

/-- C5: a stalled forward move adds 2 to the footprint-width counter and then
clamps it at 5 (stored progression 1, 3, 5, 5 over four consecutive stalls);
exactly when the pre-clamp value is 7 the painted footprint uses length 4 and
offset 3 instead of the defaults (length 2, offset 4), which retriggers on
every later stall from a stored counter of 5; a non-stalled move resets the
counter to 1.  `collisionParams` returns `(stored counter, length, buf)`. -/
theorem C5_stall_counter_progression :
    (∀ w : Nat, collisionParams w false = (1, 2, 4)) ∧
    collisionParams 1 true = (3, 2, 4) ∧
    collisionParams 3 true = (5, 2, 4) ∧
    collisionParams 5 true = (5, 4, 3) ∧
    iterateN (fun w => (collisionParams w true).1) 1 1 = 3 ∧
    iterateN (fun w => (collisionParams w true).1) 2 1 = 5 ∧
    iterateN (fun w => (collisionParams w true).1) 3 1 = 5 ∧
    iterateN (fun w => (collisionParams w true).1) 4 1 = 5 ∧
    (checkCollision cfgA octTrig (0, 0, 0) (0, 0, 0) 1 zeros3).col_width = 3 ∧
    (checkCollision cfgA octTrig (0, 0, 0) (1, 0, 0) 5 zeros3).col_width = 1 := by
  refine ⟨fun w => ?_, by decide, by decide, by decide, by decide, by decide,
    by decide, by decide, by decide, by decide⟩
  simp [collisionParams]

/-- C8: every cell index written into the collision map by `_check_collision`
(the `paintedCells` list folded by `writeOnes`) lies within the collision
map's bounds, for every pose, heading, trig model and footprint size. -/
theorem C8_collision_writes_in_bounds (trig : TrigModel) (res : Nat)
    (shape : Nat × Nat) (x1 y1 t1 : ℚ) (len wid buf : Nat)
    (h1 : 0 < shape.1) (h2 : 0 < shape.2) :
    ∀ rc ∈ paintedCells trig res shape x1 y1 t1 len wid buf,
      rc.1 < shape.1 ∧ rc.2 < shape.2 := by
  intro rc hrc
  unfold paintedCells at hrc
  simp only [List.mem_flatMap, List.mem_map, List.mem_range] at hrc
  obtain ⟨i, hi, j, hj, rfl⟩ := hrc
  refine ⟨?_, ?_⟩ <;> (dsimp [thresholdPoses]; omega)

/-- C8 witness: a concrete painted cell of a concrete footprint stays inside a
3×3 map. -/
theorem C8_collision_writes_in_bounds_witness :
    (0, 0) ∈ paintedCells octTrig 100 (3, 3) 0 0 0 2 1 4 ∧
    ((0, 0) : Nat × Nat).1 < 3 ∧ ((0, 0) : Nat × Nat).2 < 3 :=
  ⟨by decide,
   C8_collision_writes_in_bounds octTrig 100 (3, 3) 0 0 0 2 1 4 (by decide) (by decide)
     (0, 0) (by decide)⟩

/-- C9: when the displacement between the poses is not below the collision
threshold, `_check_collision` leaves the collision map entirely unchanged
(even though the stall counter may have been updated). -/
theorem C9_no_paint_without_collision (cfg : PlannerConfig) (trig : TrigModel)
    (lp cp : ℚ × ℚ × ℚ) (w : Nat) (g : Grid)
    (h : ¬ sqrtLt ((lp.1 - cp.1) ^ 2 + (lp.2.1 - cp.2.1) ^ 2) cfg.collision_threshold) :
    (checkCollision cfg trig lp cp w g).collision_map = g := by
  unfold checkCollision
  rw [if_neg h]

/-- C9 witness: a stalled move (both displacements 0.04 < 0.05, counter goes
1 → 3) whose displacement is still above a 1 cm collision threshold paints
nothing. -/
theorem C9_no_paint_without_collision_witness :
    ¬ sqrtLt (((0 : ℚ) - 1/25) ^ 2 + ((0 : ℚ) - 1/25) ^ 2) cfgC.collision_threshold ∧
    (checkCollision cfgC octTrig (0, 0, 0) (1/25, 1/25, 0) 1 zeros3).collision_map = zeros3 ∧
    (checkCollision cfgC octTrig (0, 0, 0) (1/25, 1/25, 0) 1 zeros3).col_width = 3 :=
  ⟨by decide,
   C9_no_paint_without_collision cfgC octTrig (0, 0, 0) (1/25, 1/25, 0) 1 zeros3 (by decide),
   by decide⟩

/-- C10: the footprint-width counter is 1 after `reset` and stays in
\{1, 3, 5\} across every `_check_collision` invocation. -/
theorem C10_col_width_closed (cfg : PlannerConfig) (trig : TrigModel)
    (lp cp : ℚ × ℚ × ℚ) (g : Grid) (w : Nat) (h : w = 1 ∨ w = 3 ∨ w = 5) :
    ((checkCollision cfg trig lp cp w g).col_width = 1 ∨
     (checkCollision cfg trig lp cp w g).col_width = 3 ∨
     (checkCollision cfg trig lp cp w g).col_width = 5) ∧
    (DiscretePlanner.reset cfg).col_width = 1 := by
  refine ⟨?_, rfl⟩
  rw [checkCollision_col_width]
  rcases h with rfl | rfl | rfl <;>
    cases decide (|lp.1 - cp.1| < 1/20 ∧ |lp.2.1 - cp.2.1| < 1/20) <;>
      simp [collisionParams]

/-- C10 witness: preservation at the concrete boundary value 5. -/
theorem C10_col_width_closed_witness :
    ((checkCollision cfgA octTrig (0, 0, 0) (0, 0, 0) 5 zeros3).col_width = 1 ∨
     (checkCollision cfgA octTrig (0, 0, 0) (0, 0, 0) 5 zeros3).col_width = 3 ∨
     (checkCollision cfgA octTrig (0, 0, 0) (0, 0, 0) 5 zeros3).col_width = 5) ∧
    (DiscretePlanner.reset cfgA).col_width = 1 :=
  C10_col_width_closed cfgA octTrig (0, 0, 0) (0, 0, 0) zeros3 5 (by decide)


lemma computeStart_lt (cfg : PlannerConfig) (sx sy : ℚ) (gx1 gy1 : Nat)
    (shape : Nat × Nat) (h1 : 0 < shape.1) (h2 : 0 < shape.2) :
    (computeStart cfg sx sy gx1 gy1 shape).1 < shape.1 ∧
    (computeStart cfg sx sy gx1 gy1 shape).2 < shape.2 := by
  unfold computeStart thresholdPoses
  constructor <;> (dsimp only; omega)

theorem C6_agent_cell_traversible (cfg : PlannerConfig) (radius : Nat)
    (obstacleMap collisionMap visited : Grid) (gx1 gx2 gy1 gy2 mh mw : Nat)
    (sx sy : ℚ)
    (hM : 0 < obstacleMap.height) (hN : 0 < obstacleMap.width)
    (hwf : Grid.wf visited mh mw)
    (hx2 : gx1 + obstacleMap.height ≤ gx2) (hy2 : gy1 + obstacleMap.width ≤ gy2)
    (hmh : gx1 + obstacleMap.height ≤ mh) (hmw : gy1 + obstacleMap.width ≤ mw) :
    (buildTraversible cfg radius obstacleMap collisionMap
        (markVisited visited gx1 gx2 gy1 gy2
          (computeStart cfg sx sy gx1 gy1 (obstacleMap.height, obstacleMap.width)))
        gx1 gy1
        (computeStart cfg sx sy gx1 gy1 (obstacleMap.height, obstacleMap.width))).get
      (computeStart cfg sx sy gx1 gy1 (obstacleMap.height, obstacleMap.width)).1
      (computeStart cfg sx sy gx1 gy1 (obstacleMap.height, obstacleMap.width)).2 = 1 := by
  obtain ⟨hs1, hs2⟩ := computeStart_lt cfg sx sy gx1 gy1
    (obstacleMap.height, obstacleMap.width) hM hN
  set st := computeStart cfg sx sy gx1 gy1 (obstacleMap.height, obstacleMap.width)
  have hv : (markVisited visited gx1 gx2 gy1 gy2 st).get (gx1 + st.1) (gy1 + st.2) = 1 := by
    unfold markVisited
    rw [if_pos ⟨by omega, by omega⟩]
    apply Grid.get_set_self
    · have := hwf.1
      omega
    · rw [Grid.wf_row_len visited mh mw _ hwf (by omega)]
      omega
  unfold buildTraversible
  dsimp only
  rw [Grid.get_ofFn]
  rw [if_pos hs1, if_pos hs2]
  by_cases hb : pySliceIdx ((st.1 : ℤ) - (cfg.agent_cell_radius : ℤ)) obstacleMap.height ≤ st.1 ∧
      st.1 < pySliceIdx ((st.1 : ℤ) + (cfg.agent_cell_radius : ℤ) + 1) obstacleMap.height ∧
      pySliceIdx ((st.2 : ℤ) - (cfg.agent_cell_radius : ℤ)) obstacleMap.width ≤ st.2 ∧
      st.2 < pySliceIdx ((st.2 : ℤ) + (cfg.agent_cell_radius : ℤ) + 1) obstacleMap.width
  · rw [if_pos hb]
  · rw [if_neg hb, hv]
    simp


lemma planPrefix_state (cfg : PlannerConfig) (trig : TrigModel) (s : PlannerState)
    (inp : PlanInput) :
    (planPrefix cfg trig s inp).1.curr_obs_dilation_selem_radius =
      s.curr_obs_dilation_selem_radius ∧
    (planPrefix cfg trig s inp).1.timestep = s.timestep := by
  unfold planPrefix
  dsimp only
  split <;> exact ⟨rfl, rfl⟩

theorem C4_dilation_radius_monotone (cfg : PlannerConfig) (trig : TrigModel)
    (s : PlannerState) (inp : PlanInput) (rand : Nat)
    (hmin : cfg.min_obs_dilation_selem_radius ≤ s.curr_obs_dilation_selem_radius) :
    (DiscretePlanner.plan cfg trig s inp rand).state.curr_obs_dilation_selem_radius
        ≤ s.curr_obs_dilation_selem_radius ∧
    cfg.min_obs_dilation_selem_radius ≤
      (DiscretePlanner.plan cfg trig s inp rand).state.curr_obs_dilation_selem_radius := by
  have hpre := (planPrefix_state cfg trig s inp).1
  unfold DiscretePlanner.plan
  dsimp only
  split
  · dsimp only
    omega
  · split <;> split <;> dsimp only <;> split_ifs <;>
      (try simp only [Bool.and_eq_true, decide_eq_true_eq] at *) <;> omega


lemma planPrefix_fields (cfg : PlannerConfig) (trig : TrigModel) (s : PlannerState)
    (inp : PlanInput) :
    (planPrefix cfg trig s inp).1.last_pose = some s.curr_pose ∧
    (planPrefix cfg trig s inp).1.curr_pose = (inp.start_x, inp.start_y, inp.start_o) ∧
    (planPrefix cfg trig s inp).1.visited_map
      = markVisited s.visited_map inp.gx1 inp.gx2 inp.gy1 inp.gy2
          (computeStart cfg inp.start_x inp.start_y inp.gx1 inp.gy1
            (inp.obstacle_map.height, inp.obstacle_map.width)) ∧
    (planPrefix cfg trig s inp).1.collision_map
      = (if s.last_action = some DiscreteNavigationAction.moveForward then
           (checkCollision cfg trig s.curr_pose (inp.start_x, inp.start_y, inp.start_o)
             s.col_width s.collision_map).collision_map
         else s.collision_map) := by
  unfold planPrefix
  dsimp only
  split <;> exact ⟨rfl, rfl, rfl, rfl⟩

/-- C2 (amended): every `plan` cycle that returns an action performs exactly
the prescribed single update to each persistent field — the pose history
shifts once (last_pose takes the previous curr_pose, curr_pose the new sensor
pose), VisitedMap receives the single agent-cell mark, CollisionMap becomes
the collision-check result, cleared exactly when the first resolver reports
replan without stop, the dilation radius its guarded decrement under that same
condition, and last action the returned action — while the cycle counter
increases by 1 per resolver invocation: by exactly 1 on cycles without the
frontier fallback and by exactly 2 on cycles where the fallback runs. -/
theorem C2_state_update_per_plan (cfg : PlannerConfig) (trig : TrigModel)
    (s : PlannerState) (inp : PlanInput) (rand : Nat)
    (a : DiscreteNavigationAction) (m : Grid)
    (h : (DiscretePlanner.plan cfg trig s inp rand).outcome = some (a, m)) :
    (DiscretePlanner.plan cfg trig s inp rand).state.last_pose = some s.curr_pose ∧
    (DiscretePlanner.plan cfg trig s inp rand).state.curr_pose
      = (inp.start_x, inp.start_y, inp.start_o) ∧
    (DiscretePlanner.plan cfg trig s inp rand).state.visited_map
      = markVisited s.visited_map inp.gx1 inp.gx2 inp.gy1 inp.gy2
          (computeStart cfg inp.start_x inp.start_y inp.gx1 inp.gy1
            (inp.obstacle_map.height, inp.obstacle_map.width)) ∧
    (DiscretePlanner.plan cfg trig s inp rand).state.collision_map
      = (if replanFires cfg trig s inp then
           Grid.ofFn (planPrefix cfg trig s inp).1.collision_map.height
             (planPrefix cfg trig s inp).1.collision_map.width (fun _ _ => 0)
         else (planPrefix cfg trig s inp).1.collision_map) ∧
    (planPrefix cfg trig s inp).1.collision_map
      = (if s.last_action = some DiscreteNavigationAction.moveForward then
           (checkCollision cfg trig s.curr_pose (inp.start_x, inp.start_y, inp.start_o)
             s.col_width s.collision_map).collision_map
         else s.collision_map) ∧
    (DiscretePlanner.plan cfg trig s inp rand).state.curr_obs_dilation_selem_radius
      = (if replanFires cfg trig s inp
            && decide (cfg.min_obs_dilation_selem_radius < s.curr_obs_dilation_selem_radius)
         then s.curr_obs_dilation_selem_radius - 1
         else s.curr_obs_dilation_selem_radius) ∧
    (DiscretePlanner.plan cfg trig s inp rand).state.last_action = some a ∧
    (DiscretePlanner.plan cfg trig s inp rand).state.timestep
      = s.timestep + (if fallbackFires cfg trig s inp then 2 else 1) := by
  obtain ⟨hlp, hcp, hvm, hcm⟩ := planPrefix_fields cfg trig s inp
  revert h
  unfold DiscretePlanner.plan fallbackFires replanFires
  dsimp only
  cases hstg : planFirstStg cfg trig s inp with
  | none => intro h; simp at h
  | some r1 =>
    dsimp only
    by_cases hfb : ((r1.replan && !r1.stop) && inp.found_goal) = true
    · rw [if_pos hfb, if_pos hfb]
      split
      · intro h
        simp at h
      · rename_i rF t2 found2 heq
        split at heq
        · simp at heq
        · rename_i r2 hstg2
          simp only [Option.some.injEq, Prod.mk.injEq] at heq
          obtain ⟨hrF, ht2, hfound2⟩ := heq
          subst hrF
          subst hfound2
          simp only [Bool.false_and, Bool.not_false]
          split
          · intro h
            simp at h
          · intro h
            simp only [Option.some.injEq, Prod.mk.injEq] at h
            obtain ⟨ha, hm⟩ := h
            refine ⟨hlp, hcp, hvm, rfl, hcm, rfl, ?_, ?_⟩
            · rw [ha]
            · dsimp only
              omega
    · rw [if_neg hfb, if_neg hfb]
      dsimp only
      split
      · intro h
        simp at h
      · intro h
        simp only [Option.some.injEq, Prod.mk.injEq] at h
        obtain ⟨ha, hm⟩ := h
        refine ⟨hlp, hcp, hvm, rfl, hcm, rfl, ?_, rfl⟩
        rw [ha]


lemma getSTG_precise_stop (cfg : PlannerConfig) (radius : Nat)
    (collisionMap visitedMap obstacleMap goalMap : Grid) (start : Nat × Nat)
    (gx1 gy1 : Nat) (r : StgResult)
    (h : getShortTermGoal cfg radius collisionMap visitedMap obstacleMap goalMap
      start gx1 gy1 false = some r) :
    r.stop = decide (sqrtLt (sqCellDist start r.closest_goal_pt *
      (cfg.map_resolution : ℚ) ^ 2) cfg.min_goal_distance_cm) := by
  unfold getShortTermGoal at h
  dsimp only at h
  rw [if_neg (by simp)] at h
  split at h
  · simp at h
  · simp only [Option.some.injEq] at h
    subst h
    rfl

theorem C7_no_stop_beyond_goal_distance (cfg : PlannerConfig) (trig : TrigModel)
    (s : PlannerState) (inp : PlanInput) (rand : Nat) (r1 : StgResult)
    (a : DiscreteNavigationAction) (m : Grid)
    (hdil : inp.use_dilation_for_stg = false)
    (hfound : inp.found_goal = true)
    (h1 : planFirstStg cfg trig s inp = some r1)
    (hdist : ¬ sqrtLt (sqCellDist (planPrefix cfg trig s inp).2 r1.closest_goal_pt *
      (cfg.map_resolution : ℚ) ^ 2) cfg.min_goal_distance_cm)
    (h : (DiscretePlanner.plan cfg trig s inp rand).outcome = some (a, m)) :
    a ≠ DiscreteNavigationAction.stop := by
  have h1' : getShortTermGoal cfg s.curr_obs_dilation_selem_radius
      (planPrefix cfg trig s inp).1.collision_map (planPrefix cfg trig s inp).1.visited_map
      inp.obstacle_map inp.goal_map (planPrefix cfg trig s inp).2 inp.gx1 inp.gy1 false
        = some r1 := by
    have h2 := h1
    unfold planFirstStg at h2
    rw [hdil] at h2
    exact h2
  have hstop : r1.stop = false := by
    rw [getSTG_precise_stop cfg s.curr_obs_dilation_selem_radius
      (planPrefix cfg trig s inp).1.collision_map (planPrefix cfg trig s inp).1.visited_map
      inp.obstacle_map inp.goal_map (planPrefix cfg trig s inp).2 inp.gx1 inp.gy1 r1 h1']
    exact decide_eq_false hdist
  revert h
  unfold DiscretePlanner.plan
  dsimp only
  rw [h1]
  dsimp only
  by_cases hfb : ((r1.replan && !r1.stop) && inp.found_goal) = true
  · rw [if_pos hfb]
    split
    · intro h
      simp at h
    · rename_i rF t2 found2 heq
      split at heq
      · simp at heq
      · rename_i r2 hstg2
        simp only [Option.some.injEq, Prod.mk.injEq] at heq
        obtain ⟨hrF, ht2, hfound2⟩ := heq
        subst hrF
        subst hfound2
        simp only [Bool.false_and, Bool.not_false]
        split
        · intro h
          simp at h
        · intro h
          simp only [Option.some.injEq, Prod.mk.injEq] at h
          obtain ⟨ha, -⟩ := h
          subst ha
          split_ifs <;> simp
  · rw [if_neg hfb]
    dsimp only
    rw [hstop, hfound]
    simp only [Bool.and_false, Bool.not_false]
    split
    · intro h
      simp at h
    · intro h
      simp only [Option.some.injEq, Prod.mk.injEq] at h
      obtain ⟨ha, -⟩ := h
      subst ha
      split_ifs <;> simp


def obstAll : Grid := [[1, 1, 1], [1, 1, 1], [1, 1, 1]]

theorem C6_agent_cell_traversible_witness :
    (buildTraversible cfgA 1 obstAll zeros3
        (markVisited zeros3 0 3 0 3
          (computeStart cfgA 0 0 0 0 (obstAll.height, obstAll.width))) 0 0
        (computeStart cfgA 0 0 0 0 (obstAll.height, obstAll.width))).get
      (computeStart cfgA 0 0 0 0 (obstAll.height, obstAll.width)).1
      (computeStart cfgA 0 0 0 0 (obstAll.height, obstAll.width)).2 = 1 :=
  C6_agent_cell_traversible cfgA 1 obstAll zeros3 zeros3 0 3 0 3 3 3 0 0
    (by decide) (by decide) (by decide) (by decide) (by decide) (by decide) (by decide)

theorem C4_dilation_radius_monotone_witness :
    (DiscretePlanner.plan cfgA octTrig st0 inNoFound 0).state.curr_obs_dilation_selem_radius
        ≤ st0.curr_obs_dilation_selem_radius ∧
    cfgA.min_obs_dilation_selem_radius ≤
      (DiscretePlanner.plan cfgA octTrig st0 inNoFound 0).state.curr_obs_dilation_selem_radius :=
  C4_dilation_radius_monotone cfgA octTrig st0 inNoFound 0 (by decide)

theorem C1_empty_goal_sampling_fault :
    maskNonzero inEmptyGoal.goal_map = [] ∧
    (DiscretePlanner.plan cfgA octTrig st0 inEmptyGoal 0).outcome = none :=
  ⟨by decide, by decide⟩

theorem C2_timestep_counterexample :
    st0.timestep = 1 ∧
    fallbackFires cfgA octTrig st0 inFallback = true ∧
    (DiscretePlanner.plan cfgA octTrig st0 inFallback 0).outcome.isSome = true ∧
    (DiscretePlanner.plan cfgA octTrig st0 inFallback 0).state.timestep = 3 :=
  ⟨rfl, by decide, by decide, by decide⟩

/-- C2 witness: the amended frame theorem instantiated on the concrete
fallback run used by the counterexample. -/
theorem C2_state_update_per_plan_witness :
    (DiscretePlanner.plan cfgA octTrig st0 inFallback 0).state.last_pose
      = some st0.curr_pose ∧
    (DiscretePlanner.plan cfgA octTrig st0 inFallback 0).state.curr_pose
      = (inFallback.start_x, inFallback.start_y, inFallback.start_o) ∧
    (DiscretePlanner.plan cfgA octTrig st0 inFallback 0).state.visited_map
      = markVisited st0.visited_map inFallback.gx1 inFallback.gx2 inFallback.gy1
          inFallback.gy2
          (computeStart cfgA inFallback.start_x inFallback.start_y inFallback.gx1
            inFallback.gy1
            (inFallback.obstacle_map.height, inFallback.obstacle_map.width)) ∧
    (DiscretePlanner.plan cfgA octTrig st0 inFallback 0).state.collision_map
      = (if replanFires cfgA octTrig st0 inFallback then
           Grid.ofFn (planPrefix cfgA octTrig st0 inFallback).1.collision_map.height
             (planPrefix cfgA octTrig st0 inFallback).1.collision_map.width (fun _ _ => 0)
         else (planPrefix cfgA octTrig st0 inFallback).1.collision_map) ∧
    (planPrefix cfgA octTrig st0 inFallback).1.collision_map
      = (if st0.last_action = some DiscreteNavigationAction.moveForward then
           (checkCollision cfgA octTrig st0.curr_pose
             (inFallback.start_x, inFallback.start_y, inFallback.start_o)
             st0.col_width st0.collision_map).collision_map
         else st0.collision_map) ∧
    (DiscretePlanner.plan cfgA octTrig st0 inFallback 0).state.curr_obs_dilation_selem_radius
      = (if replanFires cfgA octTrig st0 inFallback
            && decide (cfgA.min_obs_dilation_selem_radius < st0.curr_obs_dilation_selem_radius)
         then st0.curr_obs_dilation_selem_radius - 1
         else st0.curr_obs_dilation_selem_radius) ∧
    (DiscretePlanner.plan cfgA octTrig st0 inFallback 0).state.last_action
      = some DiscreteNavigationAction.turnRight ∧
    (DiscretePlanner.plan cfgA octTrig st0 inFallback 0).state.timestep
      = st0.timestep + (if fallbackFires cfgA octTrig st0 inFallback then 2 else 1) :=
  C2_state_update_per_plan cfgA octTrig st0 inFallback 0
    DiscreteNavigationAction.turnRight [[0, 0, 1], [0, 0, 0], [0, 0, 0]] (by decide)

theorem C7_stop_counterexample :
    inDilatedStop.found_goal = true ∧
    (planPrefix cfgB octTrig st0 inDilatedStop).2 = (2, 2) ∧
    (planFirstStg cfgB octTrig st0 inDilatedStop).map (fun r => r.closest_goal_pt)
      = some (0, 2) ∧
    ¬ sqrtLt (sqCellDist (2, 2) (0, 2) * (cfgB.map_resolution : ℚ) ^ 2)
      cfgB.min_goal_distance_cm ∧
    (DiscretePlanner.plan cfgB octTrig st0 inDilatedStop 0).outcome.map Prod.fst =
      some DiscreteNavigationAction.stop :=
  ⟨rfl, by decide, by decide, by decide, by decide⟩

theorem C7_no_stop_beyond_goal_distance_witness :
    DiscreteNavigationAction.turnRight ≠ DiscreteNavigationAction.stop :=
  C7_no_stop_beyond_goal_distance cfgA octTrig st0 inFallback 0
    ⟨(0, 0), [[1, 0, 0], [0, 0, 0], [0, 0, 0]], true, false, (0, 0)⟩
    DiscreteNavigationAction.turnRight [[0, 0, 1], [0, 0, 0], [0, 0, 0]]
    rfl rfl (by decide) (by decide) (by decide)

end HomeRobot
